import Mathlib

/-!
Shallow embedding of the proposal dashboard view
(src/src/pages/Dashboard.tsx of BusinessProposalApp).

The component's state hooks become a `DashboardState` record, the event
handlers become explicit state transformers, the `toast` calls become an
emitted list of `Notification` values, and the two awaited collaborator
calls (`fetchProposals`, `deleteProposal`) are passed in as `Except`
results.  JavaScript string operations are modelled on `List Char`:
`toLowerCase` maps `Char.toLower`, `trim` drops whitespace at both ends,
and `includes` is substring occurrence.
-/

namespace BusinessProposal

/-- Model of JavaScript `String.prototype.toLowerCase` (character-wise). -/
def jsToLower (s : String) : String :=
  ⟨s.data.map Char.toLower⟩

/-- Model of JavaScript `String.prototype.trim`: drop whitespace from both
ends. -/
def jsTrim (s : String) : String :=
  ⟨((s.data.dropWhile Char.isWhitespace).reverse.dropWhile
      Char.isWhitespace).reverse⟩

/-- Model of JavaScript `String.prototype.includes`: `sub` occurs as a
contiguous substring of `hay`. -/
def strHasSub (hay sub : String) : Bool :=
  (List.range (hay.data.length + 1)).any
    (fun i => sub.data.isPrefixOf (hay.data.drop i))

/-- The proposal record, restricted to the fields this view reads.
`clientEmail` is optional in the TypeScript type (`clientEmail?: string`);
`none` or `some ""` are both falsy where the code tests `!clientEmail`. -/
structure Proposal where
  id : String
  clientName : String
  clientEmail : Option String
  tags : List String
deriving Repr, DecidableEq

/-- The `searchBy` union type `"name" | "tags"`. -/
inductive SearchField where
  | name
  | tags
deriving Repr, DecidableEq

/-- Severity of a `toast` call: bare `toast` is informational,
`toast.error` and `toast.success` are the other two. -/
inductive NotifKind where
  | info
  | error
  | success
deriving Repr, DecidableEq

/-- One transient notification emitted through `toast`. -/
structure Notification where
  kind : NotifKind
  message : String
deriving Repr, DecidableEq

/-- The fixed `emailTemplateOptions` list: (value, label) pairs. -/
def emailTemplateOptions : List (String × String) :=
  [("standard", "Standard Proposal"),
   ("detailed", "Detailed Breakdown"),
   ("summary", "Brief Summary"),
   ("formal", "Formal Business Proposal")]

/-- The component's `useState` hooks gathered into one record. -/
structure DashboardState where
  proposals : List Proposal
  filteredProposals : List Proposal
  loading : Bool
  selectedProposal : Option String
  selectedTemplate : String
  searchQuery : String
  searchBy : SearchField
deriving Repr

/-- The initial state given by the `useState` default arguments. -/
def initialState : DashboardState :=
  { proposals := []
    filteredProposals := []
    loading := true
    selectedProposal := none
    selectedTemplate := "standard"
    searchQuery := ""
    searchBy := SearchField.name }

/-- JavaScript truthiness test for an optional string: `!x` is true when
`x` is `null`/`undefined` or the empty string. -/
def jsFalsyStr : Option String → Bool
  | none => true
  | some s => s == ""

/-- The per-proposal predicate inside the filter effect's
`proposals.filter(...)` callback, given the already-lowercased query.
The TypeScript callback ends in `return false`, unreachable for the closed
union `"name" | "tags"`, so the two-constructor match is total. -/
def fieldMatches (sb : SearchField) (query : String) (p : Proposal) : Bool :=
  match sb with
  | SearchField.name => strHasSub (jsToLower p.clientName) query
  | SearchField.tags => p.tags.any (fun tag => strHasSub (jsToLower tag) query)

/-- The body of the filter `useEffect`: if the trimmed query is empty the
full list is kept, otherwise the list is filtered against the lowercased
(untrimmed) query. -/
def applyFilter (proposals : List Proposal) (searchQuery : String)
    (sb : SearchField) : List Proposal :=
  if jsTrim searchQuery = "" then proposals
  else
    let query := jsToLower searchQuery
    proposals.filter (fun p => fieldMatches sb query p)

/-- The filter `useEffect` as a state transformer: recompute
`filteredProposals` from `proposals`, `searchQuery` and `searchBy`. -/
def filterEffect (st : DashboardState) : DashboardState :=
  { st with
    filteredProposals := applyFilter st.proposals st.searchQuery st.searchBy }

/-- `loadProposals` from the mount effect.  `result` is the outcome of the
awaited `fetchProposals()`.  On success both lists are set to the data; on
failure the `catch` only logs; the `finally` clears `loading` either way
(the transient `setLoading(true)` at entry is superseded by the
`finally`). -/
def loadProposals (result : Except Unit (List Proposal))
    (st : DashboardState) : DashboardState :=
  match result with
  | Except.ok data =>
      { st with proposals := data, filteredProposals := data, loading := false }
  | Except.error _ => { st with loading := false }

/-- `handleDelete`: on success of `deleteProposal(id)` followed by
`fetchProposals()`, both lists are replaced by the refetched collection;
any failure is caught and only logged, leaving the state unchanged. -/
def handleDelete (result : Except Unit (List Proposal))
    (st : DashboardState) : DashboardState :=
  match result with
  | Except.ok updatedProposals =>
      { st with proposals := updatedProposals
                filteredProposals := updatedProposals }
  | Except.error _ => st

/-- `handleProposalSelect`:
`setSelectedProposal(id === selectedProposal ? null : id)`. -/
def handleProposalSelect (id : String) (st : DashboardState) :
    DashboardState :=
  { st with
    selectedProposal :=
      if st.selectedProposal = some id then none else some id }

/-- `handleSendEmail`: the three guarded early returns and the simulated
success, each emitting one `toast`.  No `setState` call occurs in any
branch, so the state component is returned untouched. -/
def handleSendEmail (st : DashboardState) :
    DashboardState × List Notification :=
  if jsFalsyStr st.selectedProposal then
    (st, [⟨NotifKind.info, "Please select a proposal to send"⟩])
  else
    match st.proposals.find?
        (fun p => p.id == st.selectedProposal.getD "") with
    | none => (st, [⟨NotifKind.error, "Proposal not found"⟩])
    | some proposal =>
      if jsFalsyStr proposal.clientEmail then
        (st, [⟨NotifKind.error, "No email address found for this client"⟩])
      else
        (st, [⟨NotifKind.success,
              "Email sent to " ++ proposal.clientEmail.getD ""
                ++ " using " ++ st.selectedTemplate ++ " template"⟩])

/-! Sample data used by counterexamples and witnesses. -/

/-- A proposal whose client name is `Alice`, with no email and no tags. -/
def pAlice : Proposal :=
  { id := "1", clientName := "Alice", clientEmail := none, tags := [] }

/-- A proposal with a client email, for the send-email success path. -/
def pAnn : Proposal :=
  { id := "1", clientName := "Ann", clientEmail := some "a@b.com", tags := [] }

/-- A proposal whose tags contain `design`. -/
def pTagged : Proposal :=
  { id := "3", clientName := "Web Co", clientEmail := none,
    tags := ["design", "ui"] }

/-- A proposal whose name contains `Des` but whose tags do not. -/
def pNameMatch : Proposal :=
  { id := "4", clientName := "Design Hub", clientEmail := none,
    tags := ["ops"] }

/-- A loaded state with `pAnn` selected and the `detailed` template. -/
def stAnn : DashboardState :=
  { initialState with
    proposals := [pAnn], filteredProposals := [pAnn], loading := false,
    selectedProposal := some "1", selectedTemplate := "detailed" }

/-- A loaded state with `pAnn` selected, used before a delete. -/
def stDel : DashboardState :=
  { initialState with
    proposals := [pAnn], filteredProposals := [pAnn], loading := false,
    selectedProposal := some "1" }

/-! Helper lemmas about the string model. -/

/-- Appending strings concatenates their character lists. -/
theorem strData_append (s t : String) : (s ++ t).data = s.data ++ t.data :=
  rfl

/-- A list is a Boolean prefix of itself followed by anything. -/
theorem isPrefixOfApp (l₁ l₂ : List Char) :
    l₁.isPrefixOf (l₁ ++ l₂) = true := by
  rw [List.isPrefixOf_iff_prefix]
  exact List.prefix_append l₁ l₂

/-- A string occurring as a contiguous block of `hay` is found by
`strHasSub`. -/
theorem strHasSub_of_split (hay b : String) (l r : List Char)
    (h : hay.data = l ++ (b.data ++ r)) : strHasSub hay b = true := by
  unfold strHasSub
  rw [List.any_eq_true]
  refine ⟨l.length, ?_, ?_⟩
  · rw [List.mem_range, h]
    simp [List.length_append]
    omega
  · rw [h, List.drop_left]
    exact isPrefixOfApp b.data r

/-! Claim theorems. -/

/-- C1 counterexample: with the query `" alice "` the name field of
`pAlice` case-insensitively contains the trimmed query, yet the filter
produces the empty list, because the code matches against the lowercased
untrimmed query.  So the claim as stated fails at this input. -/
theorem filter_trim_mismatch_cex :
    jsTrim " alice " ≠ "" ∧
    strHasSub (jsToLower pAlice.clientName) (jsToLower (jsTrim " alice "))
      = true ∧
    applyFilter [pAlice] " alice " SearchField.name = [] := by
  refine ⟨by decide, by decide, by decide⟩

/-- C1 (amended): if the trimmed query is empty the filter returns the
full list; otherwise membership in the filtered list is equivalent to
membership in the full list together with a match of the chosen field
against the lowercased UNTRIMMED query (not the trimmed one). -/
theorem applyFilter_untrimmed_spec (ps : List Proposal) (q : String)
    (sb : SearchField) (p : Proposal) :
    (jsTrim q = "" → applyFilter ps q sb = ps) ∧
    (jsTrim q ≠ "" →
      (p ∈ applyFilter ps q sb ↔
        p ∈ ps ∧ fieldMatches sb (jsToLower q) p = true)) := by
  constructor
  · intro h
    simp [applyFilter, h]
  · intro h
    simp [applyFilter, h, List.mem_filter]

/-- C1 witness: both branches of `applyFilter_untrimmed_spec` at concrete
inputs. -/
theorem applyFilter_untrimmed_spec_witness :
    applyFilter [pAlice] "  " SearchField.name = [pAlice] ∧
    (pAlice ∈ applyFilter [pAlice] "ali" SearchField.name ↔
      pAlice ∈ [pAlice] ∧
        fieldMatches SearchField.name (jsToLower "ali") pAlice = true) :=
  ⟨(applyFilter_untrimmed_spec [pAlice] "  " SearchField.name pAlice).1
      (by decide),
   (applyFilter_untrimmed_spec [pAlice] "ali" SearchField.name pAlice).2
      (by decide)⟩

/-- C2 counterexample: with `pAnn` selected (clientEmail `a@b.com`) and
template `detailed`, the success message names the raw identifier
`detailed`, and does not contain the display label `Detailed Breakdown`
(even case-insensitively), contrary to the claim. -/
theorem sendEmail_label_cex :
    List.lookup "detailed" emailTemplateOptions = some "Detailed Breakdown" ∧
    (handleSendEmail stAnn).2 =
      [⟨NotifKind.success, "Email sent to a@b.com using detailed template"⟩] ∧
    strHasSub "Email sent to a@b.com using detailed template" "a@b.com"
      = true ∧
    strHasSub "Email sent to a@b.com using detailed template"
      "Detailed Breakdown" = false ∧
    strHasSub (jsToLower "Email sent to a@b.com using detailed template")
      (jsToLower "Detailed Breakdown") = false := by
  refine ⟨by decide, by decide, by decide, by decide, by decide⟩

/-- C2 (amended): when all three checks pass, the action emits exactly one
success notification whose message contains the recipient email address
and the template IDENTIFIER (`selectedTemplate`), not the display label. -/
theorem sendEmail_success_message (st : DashboardState)
    (proposal : Proposal) (e : String)
    (h1 : jsFalsyStr st.selectedProposal = false)
    (h2 : st.proposals.find?
      (fun p => p.id == st.selectedProposal.getD "") = some proposal)
    (h3 : proposal.clientEmail = some e) (h4 : e ≠ "") :
    (handleSendEmail st).2 =
      [⟨NotifKind.success,
        "Email sent to " ++ e ++ " using " ++ st.selectedTemplate
          ++ " template"⟩] ∧
    strHasSub ("Email sent to " ++ e ++ " using " ++ st.selectedTemplate
      ++ " template") e = true ∧
    strHasSub ("Email sent to " ++ e ++ " using " ++ st.selectedTemplate
      ++ " template") st.selectedTemplate = true := by
  have h5 : jsFalsyStr (some e) = false := by
    simp [jsFalsyStr, h4]
  refine ⟨?_, ?_, ?_⟩
  · simp [handleSendEmail, h1, h2, h3, h5]
  · exact strHasSub_of_split _ e ("Email sent to ").data
      ((" using " ++ st.selectedTemplate ++ " template").data)
      (by simp [strData_append, List.append_assoc])
  · exact strHasSub_of_split _ st.selectedTemplate
      (("Email sent to " ++ e ++ " using ").data) (" template".data)
      (by simp [strData_append, List.append_assoc])

/-- C2 witness: the amended success message property at `stAnn`. -/
theorem sendEmail_success_message_witness :
    (handleSendEmail stAnn).2 =
      [⟨NotifKind.success,
        "Email sent to " ++ "a@b.com" ++ " using " ++ stAnn.selectedTemplate
          ++ " template"⟩] ∧
    strHasSub ("Email sent to " ++ "a@b.com" ++ " using "
      ++ stAnn.selectedTemplate ++ " template") "a@b.com" = true ∧
    strHasSub ("Email sent to " ++ "a@b.com" ++ " using "
      ++ stAnn.selectedTemplate ++ " template") stAnn.selectedTemplate
      = true :=
  sendEmail_success_message stAnn pAnn "a@b.com" (by decide) (by decide)
    (by decide) (by decide)

/-- C3: the validation chain of `handleSendEmail` checks no-selection,
then not-found, then missing-email, short-circuiting: each failing branch
emits exactly one notification (informational for no selection, error for
not-found and for the missing address), and only when all three checks
pass is exactly one success notification emitted. -/
theorem sendEmail_validation_chain (st : DashboardState) :
    (jsFalsyStr st.selectedProposal = true →
      (handleSendEmail st).2 =
        [⟨NotifKind.info, "Please select a proposal to send"⟩]) ∧
    (jsFalsyStr st.selectedProposal = false →
      st.proposals.find? (fun p => p.id == st.selectedProposal.getD "")
        = none →
      (handleSendEmail st).2 =
        [⟨NotifKind.error, "Proposal not found"⟩]) ∧
    (∀ proposal, jsFalsyStr st.selectedProposal = false →
      st.proposals.find? (fun p => p.id == st.selectedProposal.getD "")
        = some proposal →
      jsFalsyStr proposal.clientEmail = true →
      (handleSendEmail st).2 =
        [⟨NotifKind.error, "No email address found for this client"⟩]) ∧
    (∀ proposal, jsFalsyStr st.selectedProposal = false →
      st.proposals.find? (fun p => p.id == st.selectedProposal.getD "")
        = some proposal →
      jsFalsyStr proposal.clientEmail = false →
      ∃ m, (handleSendEmail st).2 = [⟨NotifKind.success, m⟩]) := by
  refine ⟨?_, ?_, ?_, ?_⟩
  · intro h1
    simp [handleSendEmail, h1]
  · intro h1 h2
    simp [handleSendEmail, h1, h2]
  · intro proposal h1 h2 h3
    simp [handleSendEmail, h1, h2, h3]
  · intro proposal h1 h2 h3
    refine ⟨"Email sent to " ++ proposal.clientEmail.getD "" ++ " using "
      ++ st.selectedTemplate ++ " template", ?_⟩
    simp [handleSendEmail, h1, h2, h3]

/-- C3 witness: each of the four branches at a concrete state. -/
theorem sendEmail_validation_chain_witness :
    (handleSendEmail initialState).2 =
      [⟨NotifKind.info, "Please select a proposal to send"⟩] ∧
    (handleSendEmail
        { stAnn with selectedProposal := some "404" }).2 =
      [⟨NotifKind.error, "Proposal not found"⟩] ∧
    (handleSendEmail
        { stAnn with proposals := [pAlice] }).2 =
      [⟨NotifKind.error, "No email address found for this client"⟩] ∧
    ∃ m, (handleSendEmail stAnn).2 = [⟨NotifKind.success, m⟩] :=
  ⟨(sendEmail_validation_chain initialState).1 (by decide),
   (sendEmail_validation_chain
      { stAnn with selectedProposal := some "404" }).2.1
      (by decide) (by decide),
   (sendEmail_validation_chain { stAnn with proposals := [pAlice] }).2.2.1
      pAlice (by decide) (by decide) (by decide),
   (sendEmail_validation_chain stAnn).2.2.2 pAnn (by decide) (by decide)
      (by decide)⟩

/-- C4: `filteredProposals` is an order-preserving subsequence (`Sublist`)
of `proposals`: for the pure filter, after the filter effect, after a
successful load, and after a successful delete-and-refetch; and with an
empty query the filtered list equals the full list unchanged. -/
theorem filtered_sublist_invariant (ps data newColl : List Proposal)
    (q : String) (sb : SearchField) (st : DashboardState) :
    ((applyFilter ps q sb).Sublist ps ∧
     applyFilter ps "" sb = ps) ∧
    ((filterEffect st).filteredProposals.Sublist
      (filterEffect st).proposals ∧
     (st.searchQuery = "" →
       (filterEffect st).filteredProposals = (filterEffect st).proposals)) ∧
    (loadProposals (Except.ok data) st).filteredProposals.Sublist
      (loadProposals (Except.ok data) st).proposals ∧
    (handleDelete (Except.ok newColl) st).filteredProposals.Sublist
      (handleDelete (Except.ok newColl) st).proposals := by
  have hsub : ∀ (l : List Proposal) (q' : String) (sb' : SearchField),
      (applyFilter l q' sb').Sublist l := by
    intro l q' sb'
    unfold applyFilter
    split
    · exact List.Sublist.refl l
    · exact List.filter_sublist l
  have hempty : ∀ (l : List Proposal) (sb' : SearchField),
      applyFilter l "" sb' = l := by
    intro l sb'
    have h0 : jsTrim "" = "" := by decide
    simp [applyFilter, h0]
  refine ⟨⟨hsub ps q sb, hempty ps sb⟩, ⟨hsub _ _ _, ?_⟩, ?_, ?_⟩
  · intro h
    simp [filterEffect, h, hempty]
  · simp [loadProposals]
  · simp [handleDelete]

/-- C4 witness: the empty-query branches at a concrete state. -/
theorem filtered_sublist_invariant_witness :
    (filterEffect initialState).filteredProposals =
      (filterEffect initialState).proposals :=
  (filtered_sublist_invariant [] [] [] "" SearchField.name
    initialState).2.1.2 rfl

/-- C5: selection is a toggle holding at most one id: selecting the
currently-selected id clears the selection; selecting an id that is not
currently selected makes it the (sole) selection, and doing so twice in a
row clears it again; after any select the selection is empty or exactly
the clicked id. -/
theorem select_toggle (st : DashboardState) (id id2 : String) :
    (st.selectedProposal = some id →
      (handleProposalSelect id st).selectedProposal = none) ∧
    (st.selectedProposal ≠ some id →
      (handleProposalSelect id st).selectedProposal = some id) ∧
    (st.selectedProposal ≠ some id →
      (handleProposalSelect id
        (handleProposalSelect id st)).selectedProposal = none) ∧
    ((handleProposalSelect id2 st).selectedProposal = none ∨
      (handleProposalSelect id2 st).selectedProposal = some id2) := by
  refine ⟨?_, ?_, ?_, ?_⟩
  · intro h
    simp [handleProposalSelect, h]
  · intro h
    simp [handleProposalSelect, h]
  · intro h
    simp [handleProposalSelect, h]
  · by_cases h : st.selectedProposal = some id2
    · exact Or.inl (by simp [handleProposalSelect, h])
    · exact Or.inr (by simp [handleProposalSelect, h])

/-- C5 witness: the toggle branches at concrete states. -/
theorem select_toggle_witness :
    (handleProposalSelect "a"
      { initialState with selectedProposal := some "a" }).selectedProposal
      = none ∧
    (handleProposalSelect "a" initialState).selectedProposal = some "a" ∧
    (handleProposalSelect "a"
      (handleProposalSelect "a" initialState)).selectedProposal = none :=
  ⟨(select_toggle { initialState with selectedProposal := some "a" }
      "a" "b").1 rfl,
   (select_toggle initialState "a" "b").2.1 (by decide),
   (select_toggle initialState "a" "b").2.2.1 (by decide)⟩

/-- C6: for a query that is non-blank after trimming, tag filtering keeps
a proposal exactly when some tag case-insensitively contains the
(lowercased) query; a proposal with no matching tag is excluded even when
its client name matches. -/
theorem tags_filter_any (ps : List Proposal) (q : String) (p : Proposal)
    (h : jsTrim q ≠ "") :
    (p ∈ applyFilter ps q SearchField.tags ↔
      p ∈ ps ∧
        p.tags.any (fun tag => strHasSub (jsToLower tag) (jsToLower q))
          = true) ∧
    (p.tags.any (fun tag => strHasSub (jsToLower tag) (jsToLower q))
        = false →
      strHasSub (jsToLower p.clientName) (jsToLower q) = true →
      p ∉ applyFilter ps q SearchField.tags) := by
  have hmem : p ∈ applyFilter ps q SearchField.tags ↔
      p ∈ ps ∧
        p.tags.any (fun tag => strHasSub (jsToLower tag) (jsToLower q))
          = true := by
    simp [applyFilter, h, List.mem_filter, fieldMatches]
  refine ⟨hmem, ?_⟩
  intro hno _ hin
  rw [hmem] at hin
  rw [hno] at hin
  exact Bool.false_ne_true hin.2

/-- C6 witness: `pTagged` is kept and `pNameMatch` is excluded for the
query `des`, although the latter's client name matches. -/
theorem tags_filter_any_witness :
    (pTagged ∈ applyFilter [pTagged, pNameMatch] "des" SearchField.tags ↔
      pTagged ∈ [pTagged, pNameMatch] ∧
        pTagged.tags.any
          (fun tag => strHasSub (jsToLower tag) (jsToLower "des"))
          = true) ∧
    pNameMatch ∉ applyFilter [pTagged, pNameMatch] "des" SearchField.tags :=
  ⟨(tags_filter_any [pTagged, pNameMatch] "des" pTagged (by decide)).1,
   (tags_filter_any [pTagged, pNameMatch] "des" pNameMatch (by decide)).2
      (by decide) (by decide)⟩

/-- C7: a successful delete followed by a successful refetch replaces both
`proposals` and `filteredProposals` with exactly the refetched collection,
for every prior state (hence regardless of the prior filter state). -/
theorem delete_refetch_replaces (st : DashboardState)
    (newColl : List Proposal) :
    (handleDelete (Except.ok newColl) st).proposals = newColl ∧
    (handleDelete (Except.ok newColl) st).filteredProposals = newColl :=
  ⟨rfl, rfl⟩

/-- C8: starting from the initial state, a successful load stores the
fetched collection into both lists and clears `loading`; a failed load
leaves both lists empty, emits no notification, and still clears
`loading`. -/
theorem load_success_failure (data : List Proposal) :
    ((loadProposals (Except.ok data) initialState).proposals = data ∧
     (loadProposals (Except.ok data) initialState).filteredProposals
       = data ∧
     (loadProposals (Except.ok data) initialState).loading = false) ∧
    ((loadProposals (Except.error ()) initialState).proposals = [] ∧
     (loadProposals (Except.error ()) initialState).filteredProposals
       = [] ∧
     (loadProposals (Except.error ()) initialState).loading = false) :=
  ⟨⟨rfl, rfl, rfl⟩, ⟨rfl, rfl, rfl⟩⟩

/-- C9: in every branch, `handleSendEmail` returns the state exactly as it
was (so all six fields are untouched), and its only effect is emitting a
single notification. -/
theorem sendEmail_frame (st : DashboardState) :
    (handleSendEmail st).1 = st ∧ (handleSendEmail st).2.length = 1 := by
  unfold handleSendEmail
  split
  · exact ⟨rfl, rfl⟩
  · split
    · exact ⟨rfl, rfl⟩
    · split
      · exact ⟨rfl, rfl⟩
      · exact ⟨rfl, rfl⟩

/-- C10: `handleDelete` never modifies `selectedProposal` (on success or
failure), so the selection may dangle; when the refetched collection lacks
the selected id, the subsequent send-email attempt hits exactly the
not-found error branch. -/
theorem delete_preserves_selection (st : DashboardState)
    (result : Except Unit (List Proposal)) (newColl : List Proposal)
    (id : String) :
    (handleDelete result st).selectedProposal = st.selectedProposal ∧
    (st.selectedProposal = some id → id ≠ "" →
      (∀ p ∈ newColl, p.id ≠ id) →
      (handleSendEmail (handleDelete (Except.ok newColl) st)).2 =
        [⟨NotifKind.error, "Proposal not found"⟩]) := by
  constructor
  · cases result
    · rfl
    · rfl
  · intro hsel hid hnone
    have h1 : jsFalsyStr
        (handleDelete (Except.ok newColl) st).selectedProposal = false := by
      simp [handleDelete, hsel, jsFalsyStr, hid]
    have h2 : (handleDelete (Except.ok newColl) st).proposals.find?
        (fun p => p.id ==
          (handleDelete (Except.ok newColl) st).selectedProposal.getD "")
        = none := by
      rw [List.find?_eq_none]
      intro p hp
      simp [handleDelete, hsel]
      exact hnone p hp
    simp [handleSendEmail, h1, h2]

/-- C10 witness: delete emptying the list while `pAnn` stays selected,
then send-email reports not-found. -/
theorem delete_preserves_selection_witness :
    (handleSendEmail (handleDelete (Except.ok ([] : List Proposal))
        stDel)).2 =
      [⟨NotifKind.error, "Proposal not found"⟩] :=
  (delete_preserves_selection stDel (Except.ok []) [] "1").2 rfl
    (by decide) (by decide)

end BusinessProposal
